import Mathlib

/-
  Shallow embedding of the vnlib_compress streaming-compression core
  (lib/Net.Compression/vnlib_compress/src): compression.c / compression.h
  together with the three backend adapters feature_zlib.c, feature_brotli.c
  and feature_zstd.c.

  The third-party codec libraries (zlib, brotli, zstd) are external
  collaborators: each concrete library call is modelled by an oracle record
  carrying the values that call reports back (return code, remaining or
  consumed byte counts, bytes placed in the output buffer).  The wrapper
  logic itself - validation, dispatch, error normalization, byte
  accounting, state transitions - is translated line by line from the C
  sources.  Pointers are modelled as Option values (none = NULL), byte
  buffers as lists of bytes, and C function pointers as opaque numeric
  identifiers.
-/

namespace VnCompress

/- Error registry from compression.h -/
def VNCMP_SUCCESS : Int := 1
def ERR_INVALID_PTR : Int := -1
def ERR_OUT_OF_MEMORY : Int := -2
def ERR_OUT_OF_BOUNDS : Int := -3
def ERR_INVALID_ARGUMENT : Int := -4
def ERR_COMP_TYPE_NOT_SUPPORTED : Int := -9
def ERR_COMP_LEVEL_NOT_SUPPORTED : Int := -10
def ERR_INVALID_INPUT_DATA : Int := -11
def ERR_INVALID_OUTPUT_DATA : Int := -12
def ERR_COMPRESSION_FAILED : Int := -13
def ERR_OVERFLOW : Int := -14

/- Backend specific codes from feature_zlib.h, feature_zstd.h, feature_brotli.h -/
def ERR_GZ_INVALID_STATE : Int := -16
def ERR_GZ_OVERFLOW : Int := -17
def ERR_ZSTD_INVALID_STATE : Int := -18
def ERR_ZSTD_COMPRESSION_FAILED : Int := -19
def ERR_BR_INVALID_STATE : Int := -24

/- CompressorType enum (bit flags) -/
def COMP_TYPE_NONE : Int := 0
def COMP_TYPE_GZIP : Int := 1
def COMP_TYPE_DEFLATE : Int := 2
def COMP_TYPE_BROTLI : Int := 4
def COMP_TYPE_ZSTD : Int := 8

/- CompressionLevel enum -/
def COMP_LEVEL_OPTIMAL : Int := 0
def COMP_LEVEL_FASTEST : Int := 1
def COMP_LEVEL_NO_COMPRESSION : Int := 2
def COMP_LEVEL_SMALLEST_SIZE : Int := 3

/- zlib return codes used by the wrapper -/
def Z_OK : Int := 0
def Z_STREAM_ERROR : Int := -2
def Z_DATA_ERROR : Int := -3
def Z_MEM_ERROR : Int := -4
def Z_VERSION_ERROR : Int := -6

def INT64_MAX : Nat := 2 ^ 63 - 1

/- zstd stream-state flag bit (feature_zstd.c) -/
def STREAM_FLAG_FINISHED : Nat := 1

/-
  The opaque backend handle stored in comp_state_t.compressor.  For zlib it
  is a z_stream, for brotli a BrotliEncoderState, for zstd the small
  zstd_stream_state wrapper holding the stream pointer plus a flags word
  (only the flags word is observable by the wrapper logic).
-/
inductive BackendHandle : Type
  | zlibStream : BackendHandle
  | brotliEnc : BackendHandle
  | zstdStream (flags : Nat) : BackendHandle
deriving DecidableEq, Repr

/- comp_state_t from compression.h.  Function pointers are opaque ids. -/
structure CompState where
  compressor : Option BackendHandle
  memCtx : Nat
  allocFunc : Nat
  freeFunc : Nat
  type : Int
  level : Int
  blockSize : Nat
deriving DecidableEq, Repr

/- CompressionOperation from compression.h; buffers are byte lists, a
   none pointer models NULL. -/
structure CompressionOperation where
  bytesIn : Option (List Nat)
  bytesOut : Option (List Nat)
  flush : Int
  bytesInLength : Nat
  bytesOutLength : Nat
  bytesRead : Nat
  bytesWritten : Nat
deriving DecidableEq, Repr

/- Oracle for one deflate() library call: the zlib return code, the
   avail_in / avail_out counters as the library leaves them, and the bytes
   the library placed in the output buffer. -/
structure ZlibBlockCall where
  ret : Int
  availInAfter : Nat
  availOutAfter : Nat
  outBytes : List Nat
deriving DecidableEq, Repr

/- Oracle for one BrotliEncoderCompressStream call. -/
structure BrotliBlockCall where
  ret : Int
  availInAfter : Nat
  availOutAfter : Nat
  outBytes : List Nat
deriving DecidableEq, Repr

/- Oracle for one ZSTD_compressStream2 call: the size_t result, whether
   ZSTD_isError holds of it, and the final input.pos / output.pos. -/
structure ZstdBlockCall where
  ret : Nat
  isErr : Bool
  inPos : Nat
  outPos : Nat
  outBytes : List Nat
deriving DecidableEq, Repr

/- C cast of a size_t value to int (two's-complement wraparound). -/
def intOfSizeT (n : Nat) : Int :=
  if n % 2 ^ 32 < 2 ^ 31 then (n % 2 ^ 32 : Int) else (n % 2 ^ 32 : Int) - 2 ^ 32

/- Result of one backend CompressBlock routine: the returned code, the
   operation as left in caller memory, the backend handle afterwards, and
   a trace of the library step: none when the incremental step was never
   invoked, some finish when it was invoked with finish semantics given by
   the flag. -/
structure BlockResult where
  ret : Int
  op : CompressionOperation
  handle : Option BackendHandle
  invoked : Option Bool
deriving DecidableEq, Repr

/- DeflateCompressBlock from feature_zlib.c.  The source only asserts that
   the handle is non-null (DEBUG_ASSERT2); the none branch is unreachable
   for states satisfying the type/handle invariant and is totalized as an
   error without a library call. -/
def DeflateCompressBlock (h : Option BackendHandle) (op0 : CompressionOperation)
    (lib : ZlibBlockCall) : BlockResult :=
  match h with
  | none => ⟨ERR_INVALID_PTR, op0, none, none⟩
  | some hz =>
    let op := { op0 with bytesRead := 0, bytesWritten := 0 }
    if op.bytesInLength = 0 ∧ op.flush < 1 then
      ⟨VNCMP_SUCCESS, op, some hz, none⟩
    else
      let finish : Bool := decide (op.flush ≠ 0)
      let op1 := { op with bytesOut := op.bytesOut.map (fun _ => lib.outBytes) }
      if lib.availInAfter > op.bytesInLength ∨ lib.availOutAfter > op.bytesOutLength then
        ⟨ERR_COMPRESSION_FAILED, op1, some hz, some finish⟩
      else
        ⟨lib.ret,
         { op1 with
            bytesRead := op.bytesInLength - lib.availInAfter,
            bytesWritten := op.bytesOutLength - lib.availOutAfter },
         some hz, some finish⟩

/- BrCompressBlock from feature_brotli.c.  validateCompState runs before
   the result fields are cleared, so the null-handle path leaves the
   operation untouched. -/
def BrCompressBlock (h : Option BackendHandle) (op0 : CompressionOperation)
    (lib : BrotliBlockCall) : BlockResult :=
  match h with
  | none => ⟨ERR_BR_INVALID_STATE, op0, none, none⟩
  | some hb =>
    let op := { op0 with bytesRead := 0, bytesWritten := 0 }
    if op.bytesInLength = 0 ∧ op.flush < 1 then
      ⟨VNCMP_SUCCESS, op, some hb, none⟩
    else
      let finish : Bool := decide (op.flush ≠ 0)
      let op1 := { op with bytesOut := op.bytesOut.map (fun _ => lib.outBytes) }
      if lib.availInAfter > op.bytesInLength ∨ lib.availOutAfter > op.bytesOutLength then
        ⟨ERR_COMPRESSION_FAILED, op1, some hb, some finish⟩
      else
        ⟨lib.ret,
         { op1 with
            bytesRead := op.bytesInLength - lib.availInAfter,
            bytesWritten := op.bytesOutLength - lib.availOutAfter },
         some hb, some finish⟩

/- The flags word of the zstd_stream_state wrapper a handle stands for
   (0 for the other backends, whose handles carry no flags). -/
def handleFlags (h : BackendHandle) : Nat :=
  match h with
  | BackendHandle.zstdStream f => f
  | _ => 0

/- ZstdCompressBlock from feature_zstd.c.  The stream-finished flag lives
   in the zstd_stream_state wrapper held by the handle. -/
def ZstdCompressBlock (h : Option BackendHandle) (op0 : CompressionOperation)
    (lib : ZstdBlockCall) : BlockResult :=
  match h with
  | none => ⟨ERR_INVALID_PTR, op0, none, none⟩
  | some hz =>
    let op := { op0 with bytesRead := 0, bytesWritten := 0 }
    if op.bytesInLength = 0 ∧ op.flush < 1 then
      ⟨VNCMP_SUCCESS, op, some hz, none⟩
    else
      let flags := handleFlags hz
      if op.flush ≠ 0 ∧ flags &&& STREAM_FLAG_FINISHED ≠ 0 then
        ⟨VNCMP_SUCCESS, op, some hz, none⟩
      else
        let finish : Bool := decide (op.flush ≠ 0)
        let op1 := { op with bytesOut := op.bytesOut.map (fun _ => lib.outBytes) }
        if lib.isErr then
          ⟨ERR_ZSTD_COMPRESSION_FAILED, op1, some hz, some finish⟩
        else if lib.inPos > op.bytesInLength ∨ lib.outPos > op.bytesOutLength then
          ⟨ERR_COMPRESSION_FAILED, op1, some hz, some finish⟩
        else
          let h1 := if op.flush ≠ 0 ∧ lib.ret = 0 then
              BackendHandle.zstdStream (flags ||| STREAM_FLAG_FINISHED)
            else hz
          ⟨intOfSizeT lib.ret,
           { op1 with bytesRead := lib.inPos, bytesWritten := lib.outPos },
           some h1, some finish⟩

/- Per-call library oracle bundle for the facade dispatch. -/
structure CompressOracle where
  zlib : ZlibBlockCall
  brotli : BrotliBlockCall
  zstd : ZstdBlockCall
deriving DecidableEq, Repr

/- Outcome of the facade CompressBlock entry point. -/
structure FacadeResult where
  ret : Int
  op : Option CompressionOperation
  state : Option CompState
  invoked : Option Bool
deriving DecidableEq, Repr

/- CompressBlock from compression.c: null checks, buffer/pointer
   validation, then the switch on comp.type. -/
def CompressBlock (comp : Option CompState) (operation : Option CompressionOperation)
    (lib : CompressOracle) : FacadeResult :=
  match comp, operation with
  | none, op => ⟨ERR_INVALID_PTR, op, none, none⟩
  | some s, none => ⟨ERR_INVALID_PTR, none, some s, none⟩
  | some s, some op =>
    if op.bytesInLength > 0 ∧ op.bytesIn = none then
      ⟨ERR_INVALID_INPUT_DATA, some op, some s, none⟩
    else if op.bytesOutLength > 0 ∧ op.bytesOut = none then
      ⟨ERR_INVALID_OUTPUT_DATA, some op, some s, none⟩
    else if s.type = COMP_TYPE_BROTLI then
      let r := BrCompressBlock s.compressor op lib.brotli
      ⟨r.ret, some r.op, some { s with compressor := r.handle }, r.invoked⟩
    else if s.type = COMP_TYPE_DEFLATE ∨ s.type = COMP_TYPE_GZIP then
      let r := DeflateCompressBlock s.compressor op lib.zlib
      ⟨r.ret, some r.op, some { s with compressor := r.handle }, r.invoked⟩
    else if s.type = COMP_TYPE_ZSTD then
      let r := ZstdCompressBlock s.compressor op lib.zstd
      ⟨r.ret, some r.op, some { s with compressor := r.handle }, r.invoked⟩
    else
      ⟨ERR_COMP_TYPE_NOT_SUPPORTED, some op, some s, none⟩

/- _stateClearCompressor from compression.c (non-null pointer case). -/
def _stateClearCompressor (s : CompState) : CompState :=
  { s with
      type := COMP_TYPE_NONE,
      level := COMP_LEVEL_OPTIMAL,
      blockSize := 0,
      compressor := none }

/- Oracle for DeflateAllocCompressor: whether the z_stream heap allocation
   succeeds, and the deflateInit2 return code. -/
structure ZlibAllocCall where
  memOk : Bool
  initRet : Int
deriving DecidableEq, Repr

/- Oracle for BrAllocCompressor: whether BrotliEncoderCreateInstance
   returns a non-null encoder. -/
structure BrotliAllocCall where
  createOk : Bool
deriving DecidableEq, Repr

/- Oracle for ZstdAllocCompressor: wrapper-struct allocation,
   ZSTD_createCStream_advanced, ZSTD_initCStream, ZSTD_CStreamInSize. -/
structure ZstdAllocCall where
  memOk : Bool
  createOk : Bool
  initErr : Bool
  streamInSize : Nat
deriving DecidableEq, Repr

structure AllocOracle where
  zlib : ZlibAllocCall
  brotli : BrotliAllocCall
  zstd : ZstdAllocCall
deriving DecidableEq, Repr

/- deflateInit2 conformance: zlib documents its result as Z_OK or one of
   the error codes Z_MEM_ERROR, Z_STREAM_ERROR, Z_VERSION_ERROR; an
   arbitrary positive value is not a realizable outcome of the external
   call. -/
def ZlibAllocCall.conforms (c : ZlibAllocCall) : Prop :=
  c.initRet = Z_OK ∨ c.initRet = Z_MEM_ERROR ∨ c.initRet = Z_STREAM_ERROR ∨
  c.initRet = Z_VERSION_ERROR

instance (c : ZlibAllocCall) : Decidable (ZlibAllocCall.conforms c) := by
  unfold ZlibAllocCall.conforms
  infer_instance

/- DeflateAllocCompressor from feature_zlib.c.  On a deflateInit2 failure
   the freshly allocated stream is freed again and the zlib code is
   returned; the compressor field is only assigned on success. -/
def DeflateAllocCompressor (s : CompState) (lib : ZlibAllocCall) : Int × CompState :=
  if ¬ lib.memOk then (ERR_OUT_OF_MEMORY, s)
  else if lib.initRet ≠ Z_OK then (lib.initRet, s)
  else (VNCMP_SUCCESS, { s with compressor := some BackendHandle.zlibStream })

/- BrAllocCompressor from feature_brotli.c: NoCompression is rejected
   before the encoder instance is created. -/
def BrAllocCompressor (s : CompState) (lib : BrotliAllocCall) : Int × CompState :=
  if s.level = COMP_LEVEL_NO_COMPRESSION then (ERR_COMP_LEVEL_NOT_SUPPORTED, s)
  else if ¬ lib.createOk then (ERR_OUT_OF_MEMORY, s)
  else (VNCMP_SUCCESS, { s with compressor := some BackendHandle.brotliEnc })

/- ZstdFreeCompressor from feature_zstd.c: destroys the stream and the
   wrapper struct when present, nulling the compressor field. -/
def ZstdFreeCompressor (s : CompState) : CompState :=
  if s.compressor.isSome then { s with compressor := none } else s

/- ZstdAllocCompressor from feature_zstd.c.  The wrapper struct is stored
   in the compressor field before the stream is created; both failure
   paths run ZstdFreeCompressor.  On success the suggested input chunk
   size is recorded in blockSize with a uint32 cast. -/
def ZstdAllocCompressor (s : CompState) (lib : ZstdAllocCall) : Int × CompState :=
  if ¬ lib.memOk then (ERR_OUT_OF_MEMORY, s)
  else
    let s1 := { s with compressor := some (BackendHandle.zstdStream 0) }
    if ¬ lib.createOk then (ERR_OUT_OF_MEMORY, ZstdFreeCompressor s1)
    else if lib.initErr then (ERR_ZSTD_COMPRESSION_FAILED, ZstdFreeCompressor s1)
    else (VNCMP_SUCCESS, { s1 with blockSize := lib.streamInSize % 2 ^ 32 })

/- CompressionAllocCompressor from compression.c (non-null state pointer
   case): level range check, double-allocation check, type/level written,
   switch dispatch, rollback via _stateClearCompressor on failure. -/
def CompressionAllocCompressor (s : CompState) (ty level : Int)
    (lib : AllocOracle) : Int × CompState :=
  if level < 0 ∨ level > 9 then (ERR_COMP_LEVEL_NOT_SUPPORTED, s)
  else if s.type ≠ COMP_TYPE_NONE ∨ s.compressor.isSome then (ERR_INVALID_ARGUMENT, s)
  else
    let s1 := { s with type := ty, level := level }
    let rs :=
      if ty = COMP_TYPE_BROTLI then BrAllocCompressor s1 lib.brotli
      else if ty = COMP_TYPE_DEFLATE ∨ ty = COMP_TYPE_GZIP then DeflateAllocCompressor s1 lib.zlib
      else if ty = COMP_TYPE_ZSTD then ZstdAllocCompressor s1 lib.zstd
      else (ERR_COMP_TYPE_NOT_SUPPORTED, s1)
    if rs.1 ≠ VNCMP_SUCCESS then (rs.1, _stateClearCompressor rs.2) else rs

/- DeflateFreeCompressor from feature_zlib.c.  deflateEndRet is the code
   deflateEnd reports.  The C return expression is the C boolean
   (result == Z_OK or result == Z_DATA_ERROR) converted to int, so 1 on
   the tolerated outcomes and 0 on any other, while the stream memory is
   freed unconditionally. -/
def DeflateFreeCompressor (s : CompState) (deflateEndRet : Int) : Int × CompState :=
  if s.compressor.isSome then
    ((if deflateEndRet = Z_OK ∨ deflateEndRet = Z_DATA_ERROR then (1 : Int) else 0),
     { s with compressor := none })
  else (VNCMP_SUCCESS, s)

/- BrFreeCompressor from feature_brotli.c: unconditional destroy, no
   error signal. -/
def BrFreeCompressor (s : CompState) : CompState :=
  if s.compressor.isSome then { s with compressor := none } else s

/- CompressionFreeCompressor from compression.c (non-null state pointer
   case): switch on type, only the deflate branch can report a code, then
   _stateClearCompressor always runs. -/
def CompressionFreeCompressor (s : CompState) (deflateEndRet : Int) : Int × CompState :=
  let rs :=
    if s.type = COMP_TYPE_BROTLI then (VNCMP_SUCCESS, BrFreeCompressor s)
    else if s.type = COMP_TYPE_DEFLATE ∨ s.type = COMP_TYPE_GZIP then
      DeflateFreeCompressor s deflateEndRet
    else if s.type = COMP_TYPE_ZSTD then (VNCMP_SUCCESS, ZstdFreeCompressor s)
    else (VNCMP_SUCCESS, s)
  (rs.1, _stateClearCompressor rs.2)

/- Opaque identifiers standing for the default vnmalloc / vnfree function
   pointers compiled into compression.c. -/
def vnmallocId : Nat := 1
def vnfreeId : Nat := 2

/- Outcome of the state-allocation entry points: the return code, the
   state the out-pointer receives (none when nothing was written), and
   whether the allocator callback was ever invoked. -/
structure AllocStateOutcome where
  ret : Int
  state : Option CompState
  allocCalled : Bool
deriving DecidableEq, Repr

/- CompressionAllocState2 from compression.c.  alloc and fr are the two
   callback pointers (none = NULL); memOk tells whether the allocator
   call returns memory.  The fresh state is zeroed by memset and the
   allocator bindings are then installed. -/
def CompressionAllocState2 (alloc fr : Option Nat) (ctx : Nat)
    (memOk : Bool) : AllocStateOutcome :=
  match alloc, fr with
  | some a, some f =>
    if memOk then
      ⟨VNCMP_SUCCESS,
       some { compressor := none, memCtx := ctx, allocFunc := a, freeFunc := f,
              type := COMP_TYPE_NONE, level := COMP_LEVEL_OPTIMAL, blockSize := 0 },
       true⟩
    else ⟨ERR_OUT_OF_MEMORY, none, true⟩
  | _, _ => ⟨ERR_INVALID_ARGUMENT, none, false⟩

/- CompressionAllocState from compression.c: delegates to the two-argument
   entry point with the built-in vnmalloc / vnfree pair and a NULL
   context. -/
def CompressionAllocState (memOk : Bool) : AllocStateOutcome :=
  CompressionAllocState2 (some vnmallocId) (some vnfreeId) 0 memOk

/- Accessors from compression.c. -/
def GetCompressorType (c : Option CompState) : Int :=
  match c with
  | none => ERR_INVALID_PTR
  | some s => s.type

def GetCompressorLevel (c : Option CompState) : Int :=
  match c with
  | none => ERR_INVALID_PTR
  | some s => s.level

def GetCompressorBlockSize (c : Option CompState) : Int :=
  match c with
  | none => ERR_INVALID_PTR
  | some s => (s.blockSize : Int)

/- Oracle for the size-bound library calls: deflateBound,
   BrotliEncoderMaxCompressedSize, ZSTD_compressBound, ZSTD_CStreamOutSize. -/
structure SizeOracle where
  deflateBound : Nat
  brotliMaxSize : Nat
  zstdBound : Nat
  zstdOutSize : Nat
deriving DecidableEq, Repr

/- DeflateGetCompressedSize from feature_zlib.c.  Both arms of the flush
   branch in the source call deflateBound identically, so one oracle value
   covers them. -/
def DeflateGetCompressedSize (s : CompState) (length : Nat) (flush : Int)
    (lib : SizeOracle) : Int :=
  if length = 0 then 0
  else if lib.deflateBound > INT64_MAX then ERR_GZ_OVERFLOW
  else (lib.deflateBound : Int)

/- BrGetCompressedSize from feature_brotli.c: validateCompState checks the
   handle, flush is explicitly unused. -/
def BrGetCompressedSize (s : CompState) (length : Nat) (flush : Int)
    (lib : SizeOracle) : Int :=
  if s.compressor = none then ERR_BR_INVALID_STATE
  else if length = 0 then 0
  else if lib.brotliMaxSize > INT64_MAX then ERR_OVERFLOW
  else (lib.brotliMaxSize : Int)

/- ZstdGetCompressedSize from feature_zstd.c: a flush request adds the
   stream output-buffer size for the frame end. -/
def ZstdGetCompressedSize (s : CompState) (length : Nat) (flush : Int)
    (lib : SizeOracle) : Int :=
  if length = 0 then 0
  else
    let compressedSize := lib.zstdBound + (if flush ≠ 0 then lib.zstdOutSize else 0)
    if compressedSize > INT64_MAX then ERR_OVERFLOW
    else (compressedSize : Int)

/- GetCompressedSize facade from compression.c: null check, input-length
   range check returning ERR_OUT_OF_BOUNDS, then the switch on type. -/
def GetCompressedSize (compressor : Option CompState) (inputLength : Nat)
    (flush : Int) (lib : SizeOracle) : Int :=
  match compressor with
  | none => ERR_INVALID_PTR
  | some s =>
    if inputLength > INT64_MAX then ERR_OUT_OF_BOUNDS
    else if s.type = COMP_TYPE_BROTLI then BrGetCompressedSize s inputLength flush lib
    else if s.type = COMP_TYPE_DEFLATE ∨ s.type = COMP_TYPE_GZIP then
      DeflateGetCompressedSize s inputLength flush lib
    else if s.type = COMP_TYPE_ZSTD then ZstdGetCompressedSize s inputLength flush lib
    else ERR_COMP_TYPE_NOT_SUPPORTED

/- One public operation applied to a live state, with the oracle values of
   the library calls it makes. -/
inductive StepOp : Type
  | alloc (ty level : Int) (lib : AllocOracle) : StepOp
  | block (op : CompressionOperation) (lib : CompressOracle) : StepOp
  | free (deflateEndRet : Int) : StepOp

/- The state as left by one public operation. -/
def stepState (s : CompState) : StepOp → CompState
  | StepOp.alloc ty level lib => (CompressionAllocCompressor s ty level lib).2
  | StepOp.block op lib =>
    match (CompressBlock (some s) (some op) lib).state with
    | some s2 => s2
    | none => s
  | StepOp.free r => (CompressionFreeCompressor s r).2

/- A step whose library oracle values are realizable outcomes of the
   external calls (only the deflateInit2 result is constrained). -/
def StepOp.conforms : StepOp → Prop
  | StepOp.alloc _ _ lib => ZlibAllocCall.conforms lib.zlib
  | StepOp.block _ _ => True
  | StepOp.free _ => True

/- The handle/type invariant of a compression state. -/
def Inv (s : CompState) : Prop := s.compressor.isSome ↔ s.type ≠ COMP_TYPE_NONE

instance (s : CompState) : Decidable (Inv s) := by
  unfold Inv
  infer_instance

/- States reachable from a successful state allocation through the public
   compressor operations. -/
inductive Reachable : CompState → Prop
  | init (alloc fr : Option Nat) (ctx : Nat) (s : CompState) :
      (CompressionAllocState2 alloc fr ctx true).state = some s → Reachable s
  | step (s : CompState) (op : StepOp) :
      StepOp.conforms op → Reachable s → Reachable (stepState s op)

/- A state with a live compressor attached: one concrete algorithm tag and
   a non-null backend handle. -/
def isActiveState (s : CompState) : Prop :=
  (s.type = COMP_TYPE_GZIP ∨ s.type = COMP_TYPE_DEFLATE ∨
   s.type = COMP_TYPE_BROTLI ∨ s.type = COMP_TYPE_ZSTD) ∧ s.compressor.isSome

instance (s : CompState) : Decidable (isActiveState s) := by
  unfold isActiveState
  infer_instance

/- The buffer validation contract CompressBlock enforces: a positive
   length must come with a non-null pointer. -/
def validOpBuffers (op : CompressionOperation) : Prop :=
  (op.bytesInLength > 0 → op.bytesIn.isSome) ∧
  (op.bytesOutLength > 0 → op.bytesOut.isSome)

instance (op : CompressionOperation) : Decidable (validOpBuffers op) := by
  unfold validOpBuffers
  infer_instance

/- Whether the zstd stream held by this state has recorded a finished
   stream (STREAM_FLAG_FINISHED set in the wrapper). -/
def zstdFinished (s : CompState) : Bool :=
  match s.compressor with
  | some h => decide (handleFlags h &&& STREAM_FLAG_FINISHED ≠ 0)
  | none => false

/- The condition the per-backend overflow guards test: the byte counts the
   library reports would place consumed or produced bytes out of range. -/
def reportedExceeds (s : CompState) (op : CompressionOperation) (lib : CompressOracle) : Prop :=
  if s.type = COMP_TYPE_BROTLI then
    lib.brotli.availInAfter > op.bytesInLength ∨ lib.brotli.availOutAfter > op.bytesOutLength
  else if s.type = COMP_TYPE_ZSTD then
    lib.zstd.inPos > op.bytesInLength ∨ lib.zstd.outPos > op.bytesOutLength
  else
    lib.zlib.availInAfter > op.bytesInLength ∨ lib.zlib.availOutAfter > op.bytesOutLength

instance (s : CompState) (op : CompressionOperation) (lib : CompressOracle) :
    Decidable (reportedExceeds s op lib) := by
  unfold reportedExceeds
  infer_instance

/- Concrete fixtures used by counterexamples and witnesses. -/

def sampleDeflateState : CompState :=
  ⟨some BackendHandle.zlibStream, 0, 1, 2, COMP_TYPE_DEFLATE, COMP_LEVEL_FASTEST, 0⟩

def sampleZstdState : CompState :=
  ⟨some (BackendHandle.zstdStream 0), 0, 1, 2, COMP_TYPE_ZSTD, COMP_LEVEL_OPTIMAL, 0⟩

def sampleIdleState : CompState :=
  ⟨none, 0, 1, 2, COMP_TYPE_NONE, COMP_LEVEL_OPTIMAL, 0⟩

def sampleOracle : CompressOracle :=
  ⟨⟨Z_OK, 0, 0, []⟩, ⟨1, 0, 0, []⟩, ⟨0, false, 0, 0, []⟩⟩

def sampleZlibBadOracle : CompressOracle :=
  ⟨⟨Z_OK, 5, 0, []⟩, ⟨1, 0, 0, []⟩, ⟨0, false, 0, 0, []⟩⟩

def sampleZstdBadOracle : CompressOracle :=
  ⟨⟨Z_OK, 0, 0, []⟩, ⟨1, 0, 0, []⟩, ⟨0, true, 5, 0, []⟩⟩

def sampleAllocOracle : AllocOracle :=
  ⟨⟨true, Z_OK⟩, ⟨true⟩, ⟨true, true, false, 131072⟩⟩

def sampleSizeOracle : SizeOracle := ⟨100, 100, 100, 100⟩

def sampleNegFlushOp : CompressionOperation := ⟨none, some [], -1, 0, 0, 0, 0⟩

def sampleFlushOp : CompressionOperation := ⟨none, some [0, 0, 0, 0], 1, 0, 4, 0, 0⟩

def sampleBadOp : CompressionOperation := ⟨none, none, 0, 0, 1, 5, 7⟩

def sampleNoopOp : CompressionOperation := ⟨none, some [9, 9], 0, 0, 2, 3, 4⟩

def sampleSmallOp : CompressionOperation := ⟨some [1], some [0], 0, 1, 1, 0, 0⟩

/- Characterization of the library-step trace of DeflateCompressBlock:
   skipped exactly on the no-op guard, otherwise finish iff flush is
   truthy. -/
theorem DeflateCompressBlock_invoked (h : BackendHandle) (op : CompressionOperation)
    (lib : ZlibBlockCall) :
    (DeflateCompressBlock (some h) op lib).invoked
      = if op.bytesInLength = 0 ∧ op.flush < 1 then none
        else some (decide (op.flush ≠ 0)) := by
  unfold DeflateCompressBlock
  by_cases hno : op.bytesInLength = 0 ∧ op.flush < 1
  · simp [hno]
  · by_cases hex : lib.availInAfter > op.bytesInLength ∨ lib.availOutAfter > op.bytesOutLength <;>
      simp [hno, hex]

/- Same characterization for BrCompressBlock. -/
theorem BrCompressBlock_invoked (h : BackendHandle) (op : CompressionOperation)
    (lib : BrotliBlockCall) :
    (BrCompressBlock (some h) op lib).invoked
      = if op.bytesInLength = 0 ∧ op.flush < 1 then none
        else some (decide (op.flush ≠ 0)) := by
  unfold BrCompressBlock
  by_cases hno : op.bytesInLength = 0 ∧ op.flush < 1
  · simp [hno]
  · by_cases hex : lib.availInAfter > op.bytesInLength ∨ lib.availOutAfter > op.bytesOutLength <;>
      simp [hno, hex]

/- Same characterization for ZstdCompressBlock, which also skips the
   library step when a finished stream gets another flush call. -/
theorem ZstdCompressBlock_invoked (h : BackendHandle) (op : CompressionOperation)
    (lib : ZstdBlockCall) :
    (ZstdCompressBlock (some h) op lib).invoked
      = if op.bytesInLength = 0 ∧ op.flush < 1 then none
        else if op.flush ≠ 0 ∧ handleFlags h &&& STREAM_FLAG_FINISHED ≠ 0 then none
        else some (decide (op.flush ≠ 0)) := by
  unfold ZstdCompressBlock
  by_cases hno : op.bytesInLength = 0 ∧ op.flush < 1
  · simp [hno]
  · by_cases hfin : op.flush ≠ 0 ∧ handleFlags h &&& STREAM_FLAG_FINISHED ≠ 0
    · simp [hno, hfin]
    · by_cases herr : lib.isErr
      · simp [hno, hfin, herr]
      · by_cases hex : lib.inPos > op.bytesInLength ∨ lib.outPos > op.bytesOutLength <;>
          by_cases hfl2 : op.flush ≠ 0 ∧ lib.ret = 0 <;>
            simp [hno, hfin, herr, hex, hfl2] <;> split <;> rfl

/- Facade dispatch on a deflate/gzip state with validated buffers. -/
theorem CompressBlock_dispatch_deflate (s : CompState) (op : CompressionOperation)
    (lib : CompressOracle)
    (hty : s.type = COMP_TYPE_DEFLATE ∨ s.type = COMP_TYPE_GZIP)
    (hv1 : ¬ (op.bytesInLength > 0 ∧ op.bytesIn = none))
    (hv2 : ¬ (op.bytesOutLength > 0 ∧ op.bytesOut = none)) :
    CompressBlock (some s) (some op) lib
      = ⟨(DeflateCompressBlock s.compressor op lib.zlib).ret,
         some (DeflateCompressBlock s.compressor op lib.zlib).op,
         some { s with compressor := (DeflateCompressBlock s.compressor op lib.zlib).handle },
         (DeflateCompressBlock s.compressor op lib.zlib).invoked⟩ := by
  have hne : ¬ s.type = COMP_TYPE_BROTLI := by
    rcases hty with h | h <;> rw [h] <;> decide
  unfold CompressBlock
  dsimp only
  rw [if_neg hv1, if_neg hv2, if_neg hne, if_pos hty]

/- Facade dispatch on a brotli state with validated buffers. -/
theorem CompressBlock_dispatch_brotli (s : CompState) (op : CompressionOperation)
    (lib : CompressOracle) (hty : s.type = COMP_TYPE_BROTLI)
    (hv1 : ¬ (op.bytesInLength > 0 ∧ op.bytesIn = none))
    (hv2 : ¬ (op.bytesOutLength > 0 ∧ op.bytesOut = none)) :
    CompressBlock (some s) (some op) lib
      = ⟨(BrCompressBlock s.compressor op lib.brotli).ret,
         some (BrCompressBlock s.compressor op lib.brotli).op,
         some { s with compressor := (BrCompressBlock s.compressor op lib.brotli).handle },
         (BrCompressBlock s.compressor op lib.brotli).invoked⟩ := by
  unfold CompressBlock
  dsimp only
  rw [if_neg hv1, if_neg hv2, if_pos hty]

/- Facade dispatch on a zstd state with validated buffers. -/
theorem CompressBlock_dispatch_zstd (s : CompState) (op : CompressionOperation)
    (lib : CompressOracle) (hty : s.type = COMP_TYPE_ZSTD)
    (hv1 : ¬ (op.bytesInLength > 0 ∧ op.bytesIn = none))
    (hv2 : ¬ (op.bytesOutLength > 0 ∧ op.bytesOut = none)) :
    CompressBlock (some s) (some op) lib
      = ⟨(ZstdCompressBlock s.compressor op lib.zstd).ret,
         some (ZstdCompressBlock s.compressor op lib.zstd).op,
         some { s with compressor := (ZstdCompressBlock s.compressor op lib.zstd).handle },
         (ZstdCompressBlock s.compressor op lib.zstd).invoked⟩ := by
  have hne1 : ¬ s.type = COMP_TYPE_BROTLI := by rw [hty]; decide
  have hne2 : ¬ (s.type = COMP_TYPE_DEFLATE ∨ s.type = COMP_TYPE_GZIP) := by
    rw [hty]; decide
  unfold CompressBlock
  dsimp only
  rw [if_neg hv1, if_neg hv2, if_neg hne1, if_neg hne2, if_pos hty]

/- The deflate overflow guard: out-of-range avail counters yield
   ERR_COMPRESSION_FAILED with both result counters still zero. -/
theorem DeflateCompressBlock_guard (h : BackendHandle) (op : CompressionOperation)
    (lib : ZlibBlockCall) (hrun : ¬ (op.bytesInLength = 0 ∧ op.flush < 1))
    (hex : lib.availInAfter > op.bytesInLength ∨ lib.availOutAfter > op.bytesOutLength) :
    (DeflateCompressBlock (some h) op lib).ret = ERR_COMPRESSION_FAILED ∧
    (DeflateCompressBlock (some h) op lib).op.bytesRead = 0 ∧
    (DeflateCompressBlock (some h) op lib).op.bytesWritten = 0 := by
  unfold DeflateCompressBlock
  simp [hrun, hex]

/- The brotli overflow guard, identical in shape. -/
theorem BrCompressBlock_guard (h : BackendHandle) (op : CompressionOperation)
    (lib : BrotliBlockCall) (hrun : ¬ (op.bytesInLength = 0 ∧ op.flush < 1))
    (hex : lib.availInAfter > op.bytesInLength ∨ lib.availOutAfter > op.bytesOutLength) :
    (BrCompressBlock (some h) op lib).ret = ERR_COMPRESSION_FAILED ∧
    (BrCompressBlock (some h) op lib).op.bytesRead = 0 ∧
    (BrCompressBlock (some h) op lib).op.bytesWritten = 0 := by
  unfold BrCompressBlock
  simp [hrun, hex]

/- The zstd guard: ZSTD_isError takes precedence with the zstd-specific
   code, otherwise out-of-range pos counters yield ERR_COMPRESSION_FAILED;
   the counters stay zero either way. -/
theorem ZstdCompressBlock_guard (h : BackendHandle) (op : CompressionOperation)
    (lib : ZstdBlockCall) (hrun : ¬ (op.bytesInLength = 0 ∧ op.flush < 1))
    (hfin : ¬ (op.flush ≠ 0 ∧ handleFlags h &&& STREAM_FLAG_FINISHED ≠ 0))
    (hex : lib.inPos > op.bytesInLength ∨ lib.outPos > op.bytesOutLength) :
    (ZstdCompressBlock (some h) op lib).ret
      = (if lib.isErr then ERR_ZSTD_COMPRESSION_FAILED else ERR_COMPRESSION_FAILED) ∧
    (ZstdCompressBlock (some h) op lib).op.bytesRead = 0 ∧
    (ZstdCompressBlock (some h) op lib).op.bytesWritten = 0 := by
  unfold ZstdCompressBlock
  by_cases herr : lib.isErr <;> simp [hrun, hfin, hex, herr]

/- The facade trace of the library step on an active compressor with
   validated buffers, across all three backends. -/
theorem CompressBlock_invoked_eq (s : CompState) (op : CompressionOperation)
    (lib : CompressOracle) (hact : isActiveState s) (hbuf : validOpBuffers op) :
    (CompressBlock (some s) (some op) lib).invoked
      = if op.bytesInLength = 0 ∧ op.flush < 1 then none
        else if s.type = COMP_TYPE_ZSTD ∧ op.flush ≠ 0 ∧ zstdFinished s = true then none
        else some (decide (op.flush ≠ 0)) := by
  obtain ⟨hty, hcomp⟩ := hact
  obtain ⟨hb1, hb2⟩ := hbuf
  have hv1 : ¬ (op.bytesInLength > 0 ∧ op.bytesIn = none) := by
    rintro ⟨h1, h2⟩; have := hb1 h1; simp [h2] at this
  have hv2 : ¬ (op.bytesOutLength > 0 ∧ op.bytesOut = none) := by
    rintro ⟨h1, h2⟩; have := hb2 h1; simp [h2] at this
  cases hc : s.compressor with
  | none => rw [hc] at hcomp; simp at hcomp
  | some h =>
    rcases hty with h4 | h4 | h4 | h4
    · rw [CompressBlock_dispatch_deflate s op lib (Or.inr h4) hv1 hv2]
      dsimp only
      rw [hc, DeflateCompressBlock_invoked]
      simp [h4, COMP_TYPE_GZIP, COMP_TYPE_ZSTD]
    · rw [CompressBlock_dispatch_deflate s op lib (Or.inl h4) hv1 hv2]
      dsimp only
      rw [hc, DeflateCompressBlock_invoked]
      simp [h4, COMP_TYPE_DEFLATE, COMP_TYPE_ZSTD]
    · rw [CompressBlock_dispatch_brotli s op lib h4 hv1 hv2]
      dsimp only
      rw [hc, BrCompressBlock_invoked]
      simp [h4, COMP_TYPE_BROTLI, COMP_TYPE_ZSTD]
    · rw [CompressBlock_dispatch_zstd s op lib h4 hv1 hv2]
      dsimp only
      rw [hc, ZstdCompressBlock_invoked]
      simp [h4, zstdFinished, hc]

/-- Claim C1 counterexample: a zero-input operation with the nonzero flush
value -1 on an active Deflate compressor never reaches the backend step
(the no-op guard tests flush LESS THAN 1, not flush nonzero), so finish
semantics are not invoked although flush is nonzero. -/
theorem c1_flush_binary_counterexample :
    sampleNegFlushOp.flush ≠ 0 ∧
    sampleNegFlushOp.bytesInLength = 0 ∧
    ¬ (((CompressBlock (some sampleDeflateState) (some sampleNegFlushOp) sampleOracle).invoked
         = some true) ↔ sampleNegFlushOp.flush ≠ 0) := by
  decide

/-- Claim C1, amended: for every CompressBlock call on an active compressor
with validated buffers, whenever the backend incremental step is invoked
it is invoked with finish semantics exactly when flush is nonzero; the
step is skipped exactly when the input is empty and flush is less than 1
(so a negative flush with empty input is treated as a streaming no-op),
or - for zstd only - when a flush call arrives on an already-finished
stream. -/
theorem c1_backend_finish_iff_flush (s : CompState) (op : CompressionOperation)
    (lib : CompressOracle) (hact : isActiveState s) (hbuf : validOpBuffers op) :
    (∀ b, (CompressBlock (some s) (some op) lib).invoked = some b →
       (b = true ↔ op.flush ≠ 0)) ∧
    ((CompressBlock (some s) (some op) lib).invoked = none ↔
       (op.bytesInLength = 0 ∧ op.flush < 1) ∨
       (s.type = COMP_TYPE_ZSTD ∧ op.flush ≠ 0 ∧ zstdFinished s = true)) := by
  rw [CompressBlock_invoked_eq s op lib hact hbuf]
  constructor
  · intro b hb
    by_cases hno : op.bytesInLength = 0 ∧ op.flush < 1
    · rw [if_pos hno] at hb; exact absurd hb (by simp)
    · rw [if_neg hno] at hb
      by_cases hfin : s.type = COMP_TYPE_ZSTD ∧ op.flush ≠ 0 ∧ zstdFinished s = true
      · rw [if_pos hfin] at hb; exact absurd hb (by simp)
      · rw [if_neg hfin] at hb
        simp only [Option.some.injEq] at hb
        subst hb
        simp
  · by_cases hno : op.bytesInLength = 0 ∧ op.flush < 1
    · simp [hno]
    · by_cases hfin : s.type = COMP_TYPE_ZSTD ∧ op.flush ≠ 0 ∧ zstdFinished s = true
      · simp [hno, hfin]
      · simp [hno, hfin]

/-- Claim C1 witness: the skip characterization at a concrete flush call on
the sample Deflate state. -/
theorem c1_backend_finish_iff_flush_witness :
    (CompressBlock (some sampleDeflateState) (some sampleFlushOp) sampleOracle).invoked
        = none ↔
      (sampleFlushOp.bytesInLength = 0 ∧ sampleFlushOp.flush < 1) ∨
      (sampleDeflateState.type = COMP_TYPE_ZSTD ∧ sampleFlushOp.flush ≠ 0 ∧
       zstdFinished sampleDeflateState = true) :=
  (c1_backend_finish_iff_flush sampleDeflateState sampleFlushOp sampleOracle
    (by decide) (by decide)).2

/-- Claim C6 counterexample: an operation with zero input length and flush 0
but a positive output length and a null output pointer makes CompressBlock
return InvalidOutputData (-12) rather than success, so the claim does not
hold for every zero-input no-flush operation. -/
theorem c6_noop_counterexample :
    sampleBadOp.bytesInLength = 0 ∧ sampleBadOp.flush = 0 ∧
    (CompressBlock (some sampleDeflateState) (some sampleBadOp) sampleOracle).ret
      = ERR_INVALID_OUTPUT_DATA ∧
    (CompressBlock (some sampleDeflateState) (some sampleBadOp) sampleOracle).ret
      ≠ VNCMP_SUCCESS := by
  decide

/-- Claim C6, amended: for every active compressor and every operation with
zero input length and flush 0 that passes pointer validation (a positive
output length has a non-null pointer), CompressBlock returns success
without invoking the backend step, sets bytesRead and bytesWritten to 0,
and leaves the output buffer and the state untouched. -/
theorem c6_noop_success (s : CompState) (op : CompressionOperation) (lib : CompressOracle)
    (hact : isActiveState s) (hin : op.bytesInLength = 0) (hfl : op.flush = 0)
    (hout : op.bytesOutLength > 0 → op.bytesOut.isSome) :
    CompressBlock (some s) (some op) lib
      = ⟨VNCMP_SUCCESS, some { op with bytesRead := 0, bytesWritten := 0 },
         some s, none⟩ := by
  obtain ⟨hty, hcomp⟩ := hact
  have hval1 : ¬ (op.bytesInLength > 0 ∧ op.bytesIn = none) := by
    rintro ⟨h1, -⟩; omega
  have hval2 : ¬ (op.bytesOutLength > 0 ∧ op.bytesOut = none) := by
    rintro ⟨h1, h2⟩; have := hout h1; simp [h2] at this
  obtain ⟨c, m, a, f, t, l, b⟩ := s
  cases hc : c with
  | none => rw [hc] at hcomp; simp at hcomp
  | some h =>
    subst hc
    rcases hty with h4 | h4 | h4 | h4 <;> simp only at h4 <;> subst h4 <;>
      simp [CompressBlock, hval1, hval2, hin, hfl,
        DeflateCompressBlock, BrCompressBlock, ZstdCompressBlock,
        COMP_TYPE_GZIP, COMP_TYPE_DEFLATE, COMP_TYPE_BROTLI, COMP_TYPE_ZSTD,
        VNCMP_SUCCESS]

/-- Claim C6 witness: the no-op call at a concrete operation on the sample
Zstd state. -/
theorem c6_noop_success_witness :
    CompressBlock (some sampleZstdState) (some sampleNoopOp) sampleOracle
      = ⟨VNCMP_SUCCESS, some { sampleNoopOp with bytesRead := 0, bytesWritten := 0 },
         some sampleZstdState, none⟩ :=
  c6_noop_success sampleZstdState sampleNoopOp sampleOracle
    (by decide) (by decide) (by decide) (by decide)

/-- Claim C7 counterexample: on an active Zstd compressor, when the library
call reports an error result together with a consumed count beyond the
input length, CompressBlock returns the zstd-specific code -19, not
CompressionFailed (-13) as the claim requires for every call with
out-of-range reported counts (the error check precedes the overflow
guard). -/
theorem c7_overflow_guard_counterexample :
    sampleZstdBadOracle.zstd.inPos > sampleSmallOp.bytesInLength ∧
    (CompressBlock (some sampleZstdState) (some sampleSmallOp) sampleZstdBadOracle).invoked.isSome
      = true ∧
    (CompressBlock (some sampleZstdState) (some sampleSmallOp) sampleZstdBadOracle).ret
      ≠ ERR_COMPRESSION_FAILED ∧
    (CompressBlock (some sampleZstdState) (some sampleSmallOp) sampleZstdBadOracle).ret
      = ERR_ZSTD_COMPRESSION_FAILED := by
  decide

/-- Claim C7, amended: whenever the backend step was invoked and the
library-reported consumed/produced counts exceed the supplied buffer
lengths, CompressBlock returns CompressionFailed (-13) - except that the
Zstd backend returns its specific failure code (-19) when the library
also reports an error result - and in every such case the corrupted
counts are not propagated: bytesRead and bytesWritten remain at their
reset value 0. -/
theorem c7_overflow_guard (s : CompState) (op : CompressionOperation) (lib : CompressOracle)
    (hact : isActiveState s) (hbuf : validOpBuffers op)
    (hinv : (CompressBlock (some s) (some op) lib).invoked.isSome)
    (hex : reportedExceeds s op lib) :
    (CompressBlock (some s) (some op) lib).ret
      = (if s.type = COMP_TYPE_ZSTD ∧ lib.zstd.isErr then ERR_ZSTD_COMPRESSION_FAILED
         else ERR_COMPRESSION_FAILED) ∧
    ∀ op2, (CompressBlock (some s) (some op) lib).op = some op2 →
      op2.bytesRead = 0 ∧ op2.bytesWritten = 0 := by
  rw [CompressBlock_invoked_eq s op lib hact hbuf] at hinv
  have hrun : ¬ (op.bytesInLength = 0 ∧ op.flush < 1) := by
    intro hno; rw [if_pos hno] at hinv; simp at hinv
  have hfin : ¬ (s.type = COMP_TYPE_ZSTD ∧ op.flush ≠ 0 ∧ zstdFinished s = true) := by
    intro hf; rw [if_neg hrun, if_pos hf] at hinv; simp at hinv
  obtain ⟨hty, hcomp⟩ := hact
  obtain ⟨hb1, hb2⟩ := hbuf
  have hv1 : ¬ (op.bytesInLength > 0 ∧ op.bytesIn = none) := by
    rintro ⟨h1, h2⟩; have := hb1 h1; simp [h2] at this
  have hv2 : ¬ (op.bytesOutLength > 0 ∧ op.bytesOut = none) := by
    rintro ⟨h1, h2⟩; have := hb2 h1; simp [h2] at this
  cases hc : s.compressor with
  | none => rw [hc] at hcomp; simp at hcomp
  | some h =>
    rcases hty with h4 | h4 | h4 | h4
    · have hexz : lib.zlib.availInAfter > op.bytesInLength ∨
          lib.zlib.availOutAfter > op.bytesOutLength := by
        unfold reportedExceeds at hex; rw [h4] at hex
        simpa [COMP_TYPE_GZIP, COMP_TYPE_BROTLI, COMP_TYPE_ZSTD] using hex
      obtain ⟨g1, g2, g3⟩ := DeflateCompressBlock_guard h op lib.zlib hrun hexz
      rw [CompressBlock_dispatch_deflate s op lib (Or.inr h4) hv1 hv2]
      dsimp only
      rw [hc]
      refine ⟨by simp [h4, COMP_TYPE_GZIP, COMP_TYPE_ZSTD]; exact g1, ?_⟩
      intro op2 hop2
      simp only [Option.some.injEq] at hop2
      subst hop2
      exact ⟨g2, g3⟩
    · have hexz : lib.zlib.availInAfter > op.bytesInLength ∨
          lib.zlib.availOutAfter > op.bytesOutLength := by
        unfold reportedExceeds at hex; rw [h4] at hex
        simpa [COMP_TYPE_DEFLATE, COMP_TYPE_BROTLI, COMP_TYPE_ZSTD] using hex
      obtain ⟨g1, g2, g3⟩ := DeflateCompressBlock_guard h op lib.zlib hrun hexz
      rw [CompressBlock_dispatch_deflate s op lib (Or.inl h4) hv1 hv2]
      dsimp only
      rw [hc]
      refine ⟨by simp [h4, COMP_TYPE_DEFLATE, COMP_TYPE_ZSTD]; exact g1, ?_⟩
      intro op2 hop2
      simp only [Option.some.injEq] at hop2
      subst hop2
      exact ⟨g2, g3⟩
    · have hexz : lib.brotli.availInAfter > op.bytesInLength ∨
          lib.brotli.availOutAfter > op.bytesOutLength := by
        unfold reportedExceeds at hex; rw [h4] at hex
        simpa [COMP_TYPE_BROTLI] using hex
      obtain ⟨g1, g2, g3⟩ := BrCompressBlock_guard h op lib.brotli hrun hexz
      rw [CompressBlock_dispatch_brotli s op lib h4 hv1 hv2]
      dsimp only
      rw [hc]
      refine ⟨by simp [h4, COMP_TYPE_BROTLI, COMP_TYPE_ZSTD]; exact g1, ?_⟩
      intro op2 hop2
      simp only [Option.some.injEq] at hop2
      subst hop2
      exact ⟨g2, g3⟩
    · have hexz : lib.zstd.inPos > op.bytesInLength ∨
          lib.zstd.outPos > op.bytesOutLength := by
        unfold reportedExceeds at hex; rw [h4] at hex
        simpa [COMP_TYPE_BROTLI, COMP_TYPE_ZSTD] using hex
      have hfinz : ¬ (op.flush ≠ 0 ∧ handleFlags h &&& STREAM_FLAG_FINISHED ≠ 0) := by
        intro hf2
        exact hfin ⟨h4, hf2.1, by simp [zstdFinished, hc]; exact hf2.2⟩
      obtain ⟨g1, g2, g3⟩ := ZstdCompressBlock_guard h op lib.zstd hrun hfinz hexz
      rw [CompressBlock_dispatch_zstd s op lib h4 hv1 hv2]
      dsimp only
      rw [hc]
      constructor
      · rw [g1, h4]
        simp [COMP_TYPE_ZSTD]
      · intro op2 hop2
        simp only [Option.some.injEq] at hop2
        subst hop2
        exact ⟨g2, g3⟩

/-- Claim C7 witness: the tripped guard at a concrete Deflate call whose
library oracle reports an out-of-range remaining-input count. -/
theorem c7_overflow_guard_witness :
    (CompressBlock (some sampleDeflateState) (some sampleSmallOp) sampleZlibBadOracle).ret
      = (if sampleDeflateState.type = COMP_TYPE_ZSTD ∧ sampleZlibBadOracle.zstd.isErr
         then ERR_ZSTD_COMPRESSION_FAILED else ERR_COMPRESSION_FAILED) :=
  (c7_overflow_guard sampleDeflateState sampleSmallOp sampleZlibBadOracle
    (by decide) (by decide) (by decide) (by decide)).1

/- _stateClearCompressor restores the handle/type invariant. -/
theorem inv_clear (s : CompState) : Inv (_stateClearCompressor s) := by
  simp [Inv, _stateClearCompressor, COMP_TYPE_NONE]

/- BrAllocCompressor reports success only with a handle installed; the
   type tag is never touched by the backend. -/
theorem BrAlloc_success_shape (s : CompState) (lib : BrotliAllocCall) :
    (BrAllocCompressor s lib).1 ≠ VNCMP_SUCCESS ∨
    ((BrAllocCompressor s lib).2.compressor.isSome = true ∧
     (BrAllocCompressor s lib).2.type = s.type) := by
  unfold BrAllocCompressor
  split
  · left; simp [ERR_COMP_LEVEL_NOT_SUPPORTED, VNCMP_SUCCESS]
  · split
    · left; simp [ERR_OUT_OF_MEMORY, VNCMP_SUCCESS]
    · right; exact ⟨rfl, rfl⟩

/- Same for DeflateAllocCompressor, given a conforming deflateInit2
   result (zlib never reports a positive code there). -/
theorem DeflateAlloc_success_shape (s : CompState) (lib : ZlibAllocCall)
    (hwf : ZlibAllocCall.conforms lib) :
    (DeflateAllocCompressor s lib).1 ≠ VNCMP_SUCCESS ∨
    ((DeflateAllocCompressor s lib).2.compressor.isSome = true ∧
     (DeflateAllocCompressor s lib).2.type = s.type) := by
  unfold DeflateAllocCompressor
  split
  · left; simp [ERR_OUT_OF_MEMORY, VNCMP_SUCCESS]
  · split
    · next hne0 =>
      left
      rcases hwf with h0 | h0 | h0 | h0
      · exact absurd h0 hne0
      all_goals rw [h0]
      all_goals simp [Z_MEM_ERROR, Z_STREAM_ERROR, Z_VERSION_ERROR, VNCMP_SUCCESS]
    · right; exact ⟨rfl, rfl⟩

/- Same for ZstdAllocCompressor. -/
theorem ZstdAlloc_success_shape (s : CompState) (lib : ZstdAllocCall) :
    (ZstdAllocCompressor s lib).1 ≠ VNCMP_SUCCESS ∨
    ((ZstdAllocCompressor s lib).2.compressor.isSome = true ∧
     (ZstdAllocCompressor s lib).2.type = s.type) := by
  unfold ZstdAllocCompressor
  split
  · left; simp [ERR_OUT_OF_MEMORY, VNCMP_SUCCESS]
  · dsimp only
    split
    · left; simp [ERR_OUT_OF_MEMORY, VNCMP_SUCCESS]
    · split
      · left; simp [ERR_ZSTD_COMPRESSION_FAILED, VNCMP_SUCCESS]
      · right; exact ⟨rfl, rfl⟩

/- CompressionAllocCompressor preserves the handle/type invariant. -/
theorem inv_alloc (s : CompState) (ty level : Int) (lib : AllocOracle)
    (hwf : ZlibAllocCall.conforms lib.zlib) (h : Inv s) :
    Inv (CompressionAllocCompressor s ty level lib).2 := by
  unfold CompressionAllocCompressor
  split
  · exact h
  · split
    · exact h
    · dsimp only
      split
      · next hty4 =>
        split
        · exact inv_clear _
        · next hne =>
          rcases BrAlloc_success_shape _ lib.brotli with hbad | ⟨hc, hty2⟩
          · exact absurd (not_ne_iff.mp hne) hbad
          · subst hty4
            unfold Inv
            rw [hc, hty2]
            simp [COMP_TYPE_BROTLI, COMP_TYPE_NONE]
      · split
        · next hty2g =>
          split
          · exact inv_clear _
          · next hne =>
            rcases DeflateAlloc_success_shape _ lib.zlib hwf with hbad | ⟨hc, hty2⟩
            · exact absurd (not_ne_iff.mp hne) hbad
            · unfold Inv
              rw [hc, hty2]
              rcases hty2g with h2 | h2 <;> subst h2 <;>
                simp [COMP_TYPE_DEFLATE, COMP_TYPE_GZIP, COMP_TYPE_NONE]
        · split
          · next hty8 =>
            split
            · exact inv_clear _
            · next hne =>
              rcases ZstdAlloc_success_shape _ lib.zstd with hbad | ⟨hc, hty2⟩
              · exact absurd (not_ne_iff.mp hne) hbad
              · subst hty8
                unfold Inv
                rw [hc, hty2]
                simp [COMP_TYPE_ZSTD, COMP_TYPE_NONE]
          · split
            · exact inv_clear _
            · next hne =>
              simp [ERR_COMP_TYPE_NOT_SUPPORTED, VNCMP_SUCCESS] at hne

/- The three backend block routines never create or drop a handle. -/
theorem DeflateBlock_handle (ho : Option BackendHandle) (op : CompressionOperation)
    (lib : ZlibBlockCall) :
    (DeflateCompressBlock ho op lib).handle.isSome = ho.isSome := by
  cases ho with
  | none => rfl
  | some h =>
    unfold DeflateCompressBlock
    dsimp only
    repeat' split
    all_goals rfl

theorem BrBlock_handle (ho : Option BackendHandle) (op : CompressionOperation)
    (lib : BrotliBlockCall) :
    (BrCompressBlock ho op lib).handle.isSome = ho.isSome := by
  cases ho with
  | none => rfl
  | some h =>
    unfold BrCompressBlock
    dsimp only
    repeat' split
    all_goals rfl

theorem ZstdBlock_handle (ho : Option BackendHandle) (op : CompressionOperation)
    (lib : ZstdBlockCall) :
    (ZstdCompressBlock ho op lib).handle.isSome = ho.isSome := by
  cases ho with
  | none => rfl
  | some h =>
    unfold ZstdCompressBlock
    dsimp only
    repeat' split
    all_goals rfl

/- CompressBlock on a non-null state always hands back a state with the
   same type tag and the same handle presence. -/
theorem CompressBlock_state_pres (s : CompState) (op : CompressionOperation)
    (lib : CompressOracle) :
    ∃ s2, (CompressBlock (some s) (some op) lib).state = some s2 ∧
      s2.type = s.type ∧ s2.compressor.isSome = s.compressor.isSome := by
  unfold CompressBlock
  dsimp only
  repeat' split
  all_goals first
    | exact ⟨s, rfl, rfl, rfl⟩
    | exact ⟨_, rfl, rfl, BrBlock_handle s.compressor op lib.brotli⟩
    | exact ⟨_, rfl, rfl, DeflateBlock_handle s.compressor op lib.zlib⟩
    | exact ⟨_, rfl, rfl, ZstdBlock_handle s.compressor op lib.zstd⟩

theorem inv_block (s : CompState) (op : CompressionOperation) (lib : CompressOracle)
    (h : Inv s) : Inv (stepState s (StepOp.block op lib)) := by
  unfold stepState
  dsimp only
  obtain ⟨s2, hs2, hty, hcomp⟩ := CompressBlock_state_pres s op lib
  rw [hs2]
  unfold Inv at h ⊢
  rw [hty, hcomp]
  exact h

theorem inv_free (s : CompState) (r : Int) : Inv (stepState s (StepOp.free r)) := by
  unfold stepState CompressionFreeCompressor
  exact inv_clear _

/-- Claim C2: every state reachable from a successful state allocation
through conforming AllocateCompressor / CompressBlock / FreeCompressor
calls satisfies the invariant that the backend handle is non-null exactly
when the type tag is not None, and every such operation preserves the
invariant. -/
theorem c2_handle_type_invariant :
    (∀ s, Reachable s → Inv s) ∧
    (∀ s op, StepOp.conforms op → Inv s → Inv (stepState s op)) := by
  have hstep : ∀ s op, StepOp.conforms op → Inv s → Inv (stepState s op) := by
    intro s op hwf h
    cases op with
    | alloc ty level lib => exact inv_alloc s ty level lib hwf h
    | block op2 lib => exact inv_block s op2 lib h
    | free r => exact inv_free s r
  refine ⟨?_, hstep⟩
  intro s hr
  induction hr with
  | init alloc fr ctx s2 hinit =>
    cases alloc with
    | none => simp [CompressionAllocState2] at hinit
    | some a =>
      cases fr with
      | none => simp [CompressionAllocState2] at hinit
      | some f =>
        simp [CompressionAllocState2] at hinit
        rw [← hinit]
        simp [Inv, COMP_TYPE_NONE]
  | step s2 op hwf hr2 ih => exact hstep s2 op hwf ih

/-- Claim C2 witness: the invariant holds at the concrete freshly allocated
state. -/
theorem c2_handle_type_invariant_witness :
    Inv { compressor := none, memCtx := 0, allocFunc := 1, freeFunc := 2,
          type := COMP_TYPE_NONE, level := COMP_LEVEL_OPTIMAL, blockSize := 0 } :=
  c2_handle_type_invariant.1 _
    (Reachable.init (some 1) (some 2) 0 _ rfl)

/-- Claim C3 counterexample: on an active Deflate state, an input length of
2 to the power 63 exceeds the maximum signed 64-bit value, and
GetCompressedSize returns the OutOfBounds code (-3), not the Overflow code
(-14) the claim names. -/
theorem c3_overflow_code_counterexample :
    2 ^ 63 > INT64_MAX ∧
    GetCompressedSize (some sampleDeflateState) (2 ^ 63) 1 sampleSizeOracle
      = ERR_OUT_OF_BOUNDS ∧
    GetCompressedSize (some sampleDeflateState) (2 ^ 63) 1 sampleSizeOracle
      ≠ ERR_OVERFLOW := by
  decide

/-- Claim C3, amended: GetCompressedSize on a non-null state returns
OutOfBounds (-3) whenever the input length exceeds the maximum signed
64-bit value, and returns 0 for a zero input length on a state with an
allocated compressor. -/
theorem c3_get_compressed_size_bounds (s : CompState) (len : Nat) (flush : Int)
    (lib : SizeOracle) :
    (len > INT64_MAX → GetCompressedSize (some s) len flush lib = ERR_OUT_OF_BOUNDS) ∧
    (isActiveState s → GetCompressedSize (some s) 0 flush lib = 0) := by
  constructor
  · intro hlen
    simp [GetCompressedSize, hlen]
  · rintro ⟨hty, hcomp⟩
    have hz : ¬ ((0 : Nat) > INT64_MAX) := by decide
    have hcne : s.compressor ≠ none := by
      cases hc : s.compressor with
      | none => rw [hc] at hcomp; simp [Option.isSome] at hcomp
      | some h => simp
    rcases hty with h | h | h | h <;>
      simp [GetCompressedSize, h, COMP_TYPE_GZIP, COMP_TYPE_DEFLATE, COMP_TYPE_BROTLI,
        COMP_TYPE_ZSTD, DeflateGetCompressedSize, BrGetCompressedSize,
        ZstdGetCompressedSize, hz, hcne, INT64_MAX]

/-- Claim C3 witness: both amended conclusions at concrete inputs. -/
theorem c3_get_compressed_size_bounds_witness :
    GetCompressedSize (some sampleZstdState) (2 ^ 63) 0 sampleSizeOracle
      = ERR_OUT_OF_BOUNDS ∧
    GetCompressedSize (some sampleZstdState) 0 0 sampleSizeOracle = 0 :=
  ⟨(c3_get_compressed_size_bounds sampleZstdState (2 ^ 63) 0 sampleSizeOracle).1 (by decide),
   (c3_get_compressed_size_bounds sampleZstdState 0 0 sampleSizeOracle).2 (by decide)⟩

/-- Claim C4 counterexample: freeing an active Deflate compressor when
deflateEnd reports Z_STREAM_ERROR (-2) makes CompressionFreeCompressor
return 0 - a value that is neither the success constant 1 nor a negative
error code, so the backend result is not surfaced as a negative error. -/
theorem c4_free_error_counterexample :
    (CompressionFreeCompressor sampleDeflateState Z_STREAM_ERROR).1 = 0 ∧
    ¬ ((CompressionFreeCompressor sampleDeflateState Z_STREAM_ERROR).1 < 0) ∧
    (CompressionFreeCompressor sampleDeflateState Z_STREAM_ERROR).1 ≠ VNCMP_SUCCESS := by
  decide

/-- Claim C4, amended: releasing a Deflate/Gzip compressor treats a clean
termination (Z_OK) and the stream-not-terminated warning (Z_DATA_ERROR) as
success (returns 1); any other termination result yields the return value
0, a falsy value that is not a negative error code and not the backend
code; the backend handle is released and the state cleared to idle in
every case. -/
theorem c4_deflate_free_normalization (s : CompState) (r : Int)
    (hty : s.type = COMP_TYPE_DEFLATE ∨ s.type = COMP_TYPE_GZIP)
    (hcomp : s.compressor.isSome) :
    ((r = Z_OK ∨ r = Z_DATA_ERROR) →
       (CompressionFreeCompressor s r).1 = VNCMP_SUCCESS) ∧
    (¬ (r = Z_OK ∨ r = Z_DATA_ERROR) → (CompressionFreeCompressor s r).1 = 0) ∧
    (CompressionFreeCompressor s r).2.compressor = none ∧
    (CompressionFreeCompressor s r).2.type = COMP_TYPE_NONE := by
  have hne : s.type ≠ COMP_TYPE_BROTLI := by
    rcases hty with h | h <;> rw [h] <;> decide
  refine ⟨?_, ?_, ?_, ?_⟩ <;>
    first
    | (intro hr
       rcases hty with h | h <;>
         simp [CompressionFreeCompressor, DeflateFreeCompressor, _stateClearCompressor,
           h, hne, hcomp, hr, COMP_TYPE_DEFLATE, COMP_TYPE_GZIP, COMP_TYPE_BROTLI,
           VNCMP_SUCCESS])
    | (rcases hty with h | h <;>
         simp [CompressionFreeCompressor, DeflateFreeCompressor, _stateClearCompressor,
           h, hne, hcomp, COMP_TYPE_DEFLATE, COMP_TYPE_GZIP, COMP_TYPE_BROTLI,
           COMP_TYPE_NONE])

/-- Claim C4 witness: clean termination on the sample Deflate state. -/
theorem c4_deflate_free_normalization_witness :
    (CompressionFreeCompressor sampleDeflateState Z_OK).1 = VNCMP_SUCCESS ∧
    (CompressionFreeCompressor sampleDeflateState Z_OK).2.compressor = none :=
  ⟨(c4_deflate_free_normalization sampleDeflateState Z_OK (Or.inl (by decide))
      (by decide)).1 (Or.inl rfl),
   (c4_deflate_free_normalization sampleDeflateState Z_OK (Or.inl (by decide))
      (by decide)).2.2.1⟩

/- Any CompressionAllocCompressor outcome leaves the state untouched,
   succeeds, or ends in a _stateClearCompressor rollback. -/
theorem allocCompressor_shape (s : CompState) (ty level : Int) (lib : AllocOracle) :
    (CompressionAllocCompressor s ty level lib).2 = s ∨
    (CompressionAllocCompressor s ty level lib).1 = VNCMP_SUCCESS ∨
    ∃ s2, (CompressionAllocCompressor s ty level lib).2 = _stateClearCompressor s2 := by
  unfold CompressionAllocCompressor
  split
  · exact Or.inl rfl
  · split
    · exact Or.inl rfl
    · dsimp only
      repeat' split
      all_goals first
        | exact Or.inr (Or.inr ⟨_, rfl⟩)
        | (next h => exact Or.inr (Or.inl (not_ne_iff.mp h)))

/-- Claim C5: from an idle (detached) state, whenever CompressionAllocCompressor
does not succeed the state ends detached again (type None, no backend
handle), and the Brotli/NoCompression instance returns
CompLevelNotSupported (-10). -/
theorem c5_alloc_failure_rollback (s : CompState) (ty level : Int)
    (lib : AllocOracle) (hidle : s.type = COMP_TYPE_NONE ∧ s.compressor = none) :
    ((CompressionAllocCompressor s ty level lib).1 ≠ VNCMP_SUCCESS →
       (CompressionAllocCompressor s ty level lib).2.type = COMP_TYPE_NONE ∧
       (CompressionAllocCompressor s ty level lib).2.compressor = none) ∧
    (CompressionAllocCompressor s COMP_TYPE_BROTLI COMP_LEVEL_NO_COMPRESSION lib).1
      = ERR_COMP_LEVEL_NOT_SUPPORTED := by
  obtain ⟨hty0, hcomp0⟩ := hidle
  constructor
  · intro hfail
    rcases allocCompressor_shape s ty level lib with hc | hc | ⟨s2, hc⟩
    · rw [hc]; exact ⟨hty0, hcomp0⟩
    · exact absurd hc hfail
    · rw [hc]; simp [_stateClearCompressor]
  · unfold CompressionAllocCompressor
    simp [hty0, hcomp0, COMP_TYPE_NONE, COMP_TYPE_BROTLI, COMP_LEVEL_NO_COMPRESSION,
      BrAllocCompressor, ERR_COMP_LEVEL_NOT_SUPPORTED, VNCMP_SUCCESS]

/-- Claim C5 witness: the Brotli/NoCompression scenario on the sample idle
state rolls back and reports CompLevelNotSupported. -/
theorem c5_alloc_failure_rollback_witness :
    (CompressionAllocCompressor sampleIdleState COMP_TYPE_BROTLI
        COMP_LEVEL_NO_COMPRESSION sampleAllocOracle).1
      = ERR_COMP_LEVEL_NOT_SUPPORTED ∧
    (CompressionAllocCompressor sampleIdleState COMP_TYPE_BROTLI
        COMP_LEVEL_NO_COMPRESSION sampleAllocOracle).2.compressor = none :=
  ⟨(c5_alloc_failure_rollback sampleIdleState COMP_TYPE_BROTLI
      COMP_LEVEL_NO_COMPRESSION sampleAllocOracle (by decide)).2,
   ((c5_alloc_failure_rollback sampleIdleState COMP_TYPE_BROTLI
      COMP_LEVEL_NO_COMPRESSION sampleAllocOracle (by decide)).1 (by decide)).2⟩

/-- Claim C8 counterexample: on a state with a compressor already attached,
an allocation attempt with the out-of-range level 15 returns
CompLevelNotSupported (-10), not InvalidArgument (-4): the level check
runs first, so the claim that every attempt on an attached state returns
InvalidArgument is false. -/
theorem c8_precheck_counterexample :
    sampleDeflateState.compressor.isSome ∧
    (CompressionAllocCompressor sampleDeflateState COMP_TYPE_BROTLI 15
        sampleAllocOracle).1 ≠ ERR_INVALID_ARGUMENT ∧
    (CompressionAllocCompressor sampleDeflateState COMP_TYPE_BROTLI 15
        sampleAllocOracle).1 = ERR_COMP_LEVEL_NOT_SUPPORTED := by
  decide

/-- Claim C8, amended: CompressionAllocCompressor detects contract
violations before touching any backend and without mutating the state: a
level outside 0..9 returns CompLevelNotSupported (-10) for every state
(this check runs first), and an in-range level on a state with a
compressor already attached returns InvalidArgument (-4); in both cases
the state is returned exactly unchanged. -/
theorem c8_alloc_prechecks (s : CompState) (ty level : Int) (lib : AllocOracle) :
    ((level < 0 ∨ level > 9) →
       CompressionAllocCompressor s ty level lib = (ERR_COMP_LEVEL_NOT_SUPPORTED, s)) ∧
    (0 ≤ level → level ≤ 9 → (s.type ≠ COMP_TYPE_NONE ∨ s.compressor.isSome) →
       CompressionAllocCompressor s ty level lib = (ERR_INVALID_ARGUMENT, s)) := by
  constructor
  · intro hlev
    unfold CompressionAllocCompressor
    rw [if_pos hlev]
  · intro h0 h9 hatt
    unfold CompressionAllocCompressor
    rw [if_neg (by omega), if_pos hatt]

/-- Claim C8 witness: both prechecks at concrete inputs. -/
theorem c8_alloc_prechecks_witness :
    CompressionAllocCompressor sampleIdleState COMP_TYPE_BROTLI 15 sampleAllocOracle
      = (ERR_COMP_LEVEL_NOT_SUPPORTED, sampleIdleState) ∧
    CompressionAllocCompressor sampleDeflateState COMP_TYPE_BROTLI 3 sampleAllocOracle
      = (ERR_INVALID_ARGUMENT, sampleDeflateState) :=
  ⟨(c8_alloc_prechecks sampleIdleState COMP_TYPE_BROTLI 15 sampleAllocOracle).1
      (Or.inr (by decide)),
   (c8_alloc_prechecks sampleDeflateState COMP_TYPE_BROTLI 3 sampleAllocOracle).2
      (by decide) (by decide) (Or.inl (by decide))⟩

/-- Claim C9: CompressionAllocState2 rejects a null alloc or free callback
(including both null) with InvalidArgument, never calling any allocator
and never substituting the defaults; the defaults are supplied only by
CompressionAllocState, which delegates with the built-in vnmalloc/vnfree
pair, and a successful two-argument allocation installs exactly the
callbacks it was given. -/
theorem c9_alloc_state2_null_args (alloc fr : Option Nat) (ctx : Nat) (memOk : Bool) :
    ((alloc = none ∨ fr = none) →
       CompressionAllocState2 alloc fr ctx memOk
         = ⟨ERR_INVALID_ARGUMENT, none, false⟩) ∧
    (CompressionAllocState memOk
       = CompressionAllocState2 (some vnmallocId) (some vnfreeId) 0 memOk) ∧
    (∀ a f s, (CompressionAllocState2 (some a) (some f) ctx memOk).state = some s →
       s.allocFunc = a ∧ s.freeFunc = f ∧ s.memCtx = ctx) := by
  refine ⟨?_, rfl, ?_⟩
  · intro hnull
    rcases hnull with h | h
    · subst h; cases fr <;> rfl
    · subst h; cases alloc <;> rfl
  · intro a f s hs
    unfold CompressionAllocState2 at hs
    cases memOk with
    | true => simp at hs; exact ⟨by rw [← hs], by rw [← hs], by rw [← hs]⟩
    | false => simp at hs

/-- Claim C9 witness: a null alloc callback at concrete inputs, and the
delegation identity of the zero-argument entry point. -/
theorem c9_alloc_state2_null_args_witness :
    CompressionAllocState2 none (some 2) 7 true
      = ⟨ERR_INVALID_ARGUMENT, none, false⟩ ∧
    CompressionAllocState true
      = CompressionAllocState2 (some vnmallocId) (some vnfreeId) 0 true :=
  ⟨(c9_alloc_state2_null_args none (some 2) 7 true).1 (Or.inl rfl),
   (c9_alloc_state2_null_args none (some 2) 7 true).2.1⟩

/- CompressionFreeCompressor always ends in _stateClearCompressor: level
   and blockSize are reset while the allocator bindings survive. -/
theorem freeCompressor_fields (s : CompState) (r : Int) :
    (CompressionFreeCompressor s r).2.level = COMP_LEVEL_OPTIMAL ∧
    (CompressionFreeCompressor s r).2.blockSize = 0 ∧
    (CompressionFreeCompressor s r).2.allocFunc = s.allocFunc ∧
    (CompressionFreeCompressor s r).2.freeFunc = s.freeFunc ∧
    (CompressionFreeCompressor s r).2.memCtx = s.memCtx := by
  unfold CompressionFreeCompressor DeflateFreeCompressor BrFreeCompressor ZstdFreeCompressor
  dsimp only
  repeat' split
  all_goals simp [_stateClearCompressor]

/-- Claim C10: after a successful CompressionFreeCompressor call (also on an
already-detached state) the accessors read level Optimal (0) and block
size 0, whatever was configured before, and the allocator bindings
(allocFunc, freeFunc, context) are unchanged. -/
theorem c10_free_resets_metadata (s : CompState) (r : Int)
    (hok : (CompressionFreeCompressor s r).1 = VNCMP_SUCCESS) :
    GetCompressorLevel (some (CompressionFreeCompressor s r).2) = COMP_LEVEL_OPTIMAL ∧
    GetCompressorBlockSize (some (CompressionFreeCompressor s r).2) = 0 ∧
    (CompressionFreeCompressor s r).2.allocFunc = s.allocFunc ∧
    (CompressionFreeCompressor s r).2.freeFunc = s.freeFunc ∧
    (CompressionFreeCompressor s r).2.memCtx = s.memCtx := by
  have h := freeCompressor_fields s r
  exact ⟨by simp [GetCompressorLevel, h.1],
         by simp [GetCompressorBlockSize, h.2.1],
         h.2.2.1, h.2.2.2.1, h.2.2.2.2⟩

/-- Claim C10 witness: freeing the sample Deflate state with a clean
termination result. -/
theorem c10_free_resets_metadata_witness :
    GetCompressorLevel (some (CompressionFreeCompressor sampleDeflateState Z_OK).2)
      = COMP_LEVEL_OPTIMAL ∧
    GetCompressorBlockSize (some (CompressionFreeCompressor sampleDeflateState Z_OK).2)
      = 0 :=
  ⟨(c10_free_resets_metadata sampleDeflateState Z_OK (by decide)).1,
   (c10_free_resets_metadata sampleDeflateState Z_OK (by decide)).2.1⟩

end VnCompress
